import Mathlib

/-!
Verification development for the VPX lightmapper export pipeline
(`addons/vpx_lightmapper/vlm_export.py`).  The definitions below are a
shallow embedding of the parts of `export_vpx` that the properties under
study talk about: bytes are `Nat` (values 0..255), streams of tagged BIFF
records are lists of records, and the stateful in-place mutations of the
Python code are explicit functions from old bytes to new bytes.

The tagged-record reader/writer (`biff_io.py`) is not part of the sources
at hand; its primitives (`next`, `get_u32`, `get_string`, `get_wide_string`,
`get_record_data`, `put_bool`, ...) are modelled from the specification of
the TagRecordReader/TagRecordWriter components: a record on disk is a
32-bit little-endian length prefix, a 4-character tag, and a payload whose
length is the prefix minus the 4 tag bytes; after advancing to a record the
read/write position sits at the start of the payload.
-/

/-! ## Byte-level primitives -/

/-- Little-endian 4-byte encoding of a 32-bit unsigned value. -/
def u32le (n : Nat) : List Nat :=
  [n % 256, n / 256 % 256, n / 65536 % 256, n / 16777216 % 256]

/-- Little-endian 2-byte encoding of a 16-bit unsigned value. -/
def u16le (n : Nat) : List Nat :=
  [n % 256, n / 256 % 256]

/-- Little-endian 4-byte encoding of a signed 32-bit value (two-complement). -/
def i32le (n : Int) : List Nat :=
  u32le ((n % 4294967296).toNat)

/-- Byte `i` of a buffer, 0 when reading past the end. -/
def byteAt (bs : List Nat) (i : Nat) : Nat := bs.getD i 0

/-- Modelled from the spec: the reader's `get_u32`, a 32-bit little-endian
read at the current position. -/
def decodeU32 (bs : List Nat) : Nat :=
  byteAt bs 0 + 256 * byteAt bs 1 + 65536 * byteAt bs 2 + 16777216 * byteAt bs 3

/-- Modelled from the spec: the reader's `get_bool` (a 4-byte integer read,
true iff nonzero). -/
def decodeBool (bs : List Nat) : Bool := decodeU32 bs != 0

/-- ASCII bytes of a string literal. -/
def asciiOf (s : String) : List Nat := s.toList.map Char.toNat

/-- A string padded with NUL bytes to a 32-byte fixed-width field. -/
def asciiPad32 (s : String) : List Nat :=
  asciiOf s ++ List.replicate (32 - (asciiOf s).length) 0

/-- Strip trailing NUL bytes (Python `rstrip` of the NUL character). -/
def rstrip0 (bs : List Nat) : List Nat :=
  (bs.reverse.dropWhile (fun b => b == 0)).reverse

/-- Characters of a double-byte ("wide") character sequence. -/
def wideChars : List Nat → List Char
  | lo :: hi :: rest => Char.ofNat (lo + 256 * hi) :: wideChars rest
  | [_] => []
  | [] => []

/-- Modelled from the spec: the reader's `get_wide_string`, a 32-bit byte
count followed by double-byte characters. -/
def decodeWide (bs : List Nat) : String :=
  String.mk (wideChars ((bs.drop 4).take (decodeU32 (bs.take 4))))

/-- Modelled from the spec: the reader's `get_string`, a 32-bit byte count
followed by single-byte characters. -/
def decodeStr (bs : List Nat) : String :=
  String.mk (((bs.drop 4).take (decodeU32 (bs.take 4))).map Char.ofNat)

/-- Python str.startswith, on the character list (kernel-computable model
of `String.startsWith`). -/
def pyStartsWith (s p : String) : Bool := p.toList.isPrefixOf s.toList

/-- Overwrite `new.length` bytes of `bs` starting at offset `off`, the
in-place `put_*` writes of the reader. -/
def overwriteAt (bs : List Nat) (off : Nat) (new : List Nat) : List Nat :=
  bs.take off ++ new ++ bs.drop (off + new.length)

/-! ## Tagged records -/

/-- A tagged BIFF record: 4-character tag, payload bytes (the on-disk
32-bit length prefix is not stored, it is `payload.length + 4`). -/
structure BiffRecord where
  tag : String
  payload : List Nat
deriving DecidableEq

/-- The 4 tag bytes of a record. -/
def tagBytes (t : String) : List Nat := t.toList.map Char.toNat

/-- On-disk bytes of one record: length prefix, tag, payload. -/
def recordBytes (r : BiffRecord) : List Nat :=
  u32le (r.payload.length + 4) ++ tagBytes r.tag ++ r.payload

/-- On-disk bytes of a record-structured stream. -/
def streamBytes (rs : List BiffRecord) : List Nat :=
  (rs.map recordBytes).flatten

/-- On-disk bytes of a GameItem stream: leading signed 32-bit item type,
then the records. -/
def itemBytes (itemType : Int) (rs : List BiffRecord) : List Nat :=
  i32le itemType ++ streamBytes rs

/-! ## IntegrityHasher feed (vlm_export.py:718-730)

For a record-structured stream flagged as hashed, the loop feeds the hash
per record: for the `CODE` record the 4 tag bytes and then `code_length`
bytes read after the 32-bit length field (`get_u32` then `get`); for every
other record `get_record_data(True)`, the tag and payload without the
length prefix (modelled from the spec of the TagRecordReader). -/

/-- Bytes fed to the IntegrityHasher for one record of a hashed
record-structured stream. -/
def hashedRecordFeed (r : BiffRecord) : List Nat :=
  if r.tag = "CODE" then
    tagBytes "CODE" ++ (r.payload.drop 4).take (decodeU32 (r.payload.take 4))
  else
    tagBytes r.tag ++ r.payload

/-- Bytes fed to the IntegrityHasher for a whole hashed record-structured
stream, record by record in stream order. -/
def streamHashFeed (rs : List BiffRecord) : List Nat :=
  (rs.map hashedRecordFeed).flatten

/-- A `CODE` record is well-formed when its payload is a 32-bit length
field holding the byte count of the script content that follows. -/
def codeWellFormed (r : BiffRecord) : Prop :=
  r.tag = "CODE" → ∃ s : List Nat, r.payload = u32le s.length ++ s ∧ s.length < 4294967296

/-! ## ExportMergePipeline: item classification and patching
(vlm_export.py:114-240) -/

/-- The configured export mode (`context.scene.vlmSettings.export_mode`). -/
inductive ExportMode
  | default
  | hide
  | remove
  | remove_all
deriving DecidableEq

/-- One object of the bake collection, reduced to the two settings the item
pass reads (`vlmSettings.vpx_object`, `vlmSettings.vpx_subpart`). -/
structure BakeObj where
  vpx_object : String
  vpx_subpart : String
deriving DecidableEq

/-- The ambient inputs of the item pass: export mode, the names collected
from the bake/light collections, the bake objects with their subparts, the
names present in the bake collection, and whether a playfield collection
is configured. -/
structure ExportEnv where
  mode : ExportMode
  bakedVpxObjects : List String
  bakedVpxLights : List String
  bakeObjs : List BakeObj
  bakeColNames : List String
  playfieldCol : Bool

/-- Whether some bake object covers subpart `sub` of the item `name`
(the `next((o for o in bake_col.all_objects if ...))` probes). -/
def subpartBaked (env : ExportEnv) (name sub : String) : Bool :=
  env.bakeObjs.any (fun o => o.vpx_object == name && o.vpx_subpart == sub)

/-- Force a 4-byte boolean payload to false: `put_bool(False)` at the start
of the record payload. -/
def forceBoolFalse (r : BiffRecord) : BiffRecord :=
  { r with payload := overwriteAt r.payload 0 (u32le 0) }

/-- IEEE-754 single-precision little-endian bytes of -2800.0. -/
def f32neg2800 : List Nat := [0, 0, 47, 197]

/-- Outcome of the first stage of the per-record dispatch: the possibly
rewritten record and the `visibility_field` / `reflection_field` /
`is_part_baked` flags. -/
structure Stage1Out where
  res : BiffRecord
  visF : Bool
  reflF : Bool
  partF : Bool

/-- The if/elif dispatch of vlm_export.py:150-201 for one record: byte
writes performed inside the chain and the flags it leaves behind.
`t` is the item type code, `isBaked` the `name in baked_vpx_objects` test
made on the item's name. -/
def patchStage1 (env : ExportEnv) (t : Int) (name : String) (isBaked : Bool)
    (r : BiffRecord) : Stage1Out :=
  if r.tag = "NAME" then
    if name = "playfield_mesh" ∧ env.playfieldCol then
      -- rename to playfield_phys: skip(24) then two put_u32
      ⟨{ r with payload := overwriteAt r.payload 24 (u32le 0x00680070 ++ u32le 0x00730079) },
        false, false, isBaked⟩
    else ⟨r, false, false, isBaked⟩
  else if r.tag = "REEN" then ⟨r, false, true, isBaked⟩
  else if r.tag = "CLDR" ∨ r.tag = "CLDW" then ⟨r, false, false, isBaked⟩
  else if r.tag = "ISTO" then ⟨r, false, false, isBaked⟩
  else if r.tag = "IMAG" ∨ r.tag = "SIMG" ∨ r.tag = "IMAB" then ⟨r, false, false, isBaked⟩
  else if t = 0 ∧ r.tag = "VSBL" then ⟨r, true, false, isBaked⟩
  else if t = 6 ∧ r.tag = "VSBL" then ⟨r, false, false, isBaked⟩
  else if t = 0 ∧ r.tag = "SVBL" then ⟨r, true, false, isBaked⟩
  else if (t = 12 ∨ t = 21) ∧ r.tag = "RVIS" then ⟨r, true, false, isBaked⟩
  else if t = 10 ∧ r.tag = "GSUP" then
    (if env.bakeColNames.contains ("VPX.Gate.Bracket." ++ name) then
      ⟨forceBoolFalse r, false, false, isBaked⟩
    else ⟨r, false, false, isBaked⟩)
  else if t = 11 ∧ r.tag = "SSUP" then
    (if env.bakeColNames.contains ("VPX.Spinner.Bracket." ++ name) then
      ⟨forceBoolFalse r, false, false, isBaked⟩
    else ⟨r, false, false, isBaked⟩)
  else if (t = 19 ∨ t = 22) ∧ r.tag = "TVIS" then ⟨r, true, false, isBaked⟩
  else if t = 20 ∧ r.tag = "FVIS" then ⟨r, true, false, isBaked⟩
  else if t = 5 ∧ r.tag = "CAVI" then ⟨r, true, false, subpartBaked env name "Cap"⟩
  else if t = 5 ∧ r.tag = "BSVS" then ⟨r, true, false, subpartBaked env name "Base"⟩
  else if t = 5 ∧ r.tag = "RIVS" then ⟨r, true, false, subpartBaked env name "Ring"⟩
  else if t = 5 ∧ r.tag = "SKVS" then ⟨r, true, false, subpartBaked env name "Socket"⟩
  else ⟨r, false, false, isBaked⟩

/-- Full per-record patch of the second item loop (vlm_export.py:150-217):
stage 1 dispatch, the light/flasher sync writes of lines 202-214, then the
final `put_bool(False)` when the part is baked and the record is a
visibility or reflection field.  For a flasher `FHEI` record the source
does `skip(-4)` then `put_float(-2800)`: under the reader model that
writes the 4 bytes sitting just before the payload, i.e. over the tag. -/
def patchRecord (env : ExportEnv) (t : Int) (name : String)
    (isBaked isBakedLight : Bool) (r : BiffRecord) : BiffRecord :=
  let s1 := patchStage1 env t name isBaked r
  let r2 :=
    if t = 7 ∧ isBakedLight = true then
      (if s1.res.tag = "BULT" then { s1.res with payload := overwriteAt s1.res.payload 0 (u32le 1) }
      else if s1.res.tag = "BHHI" then { s1.res with payload := overwriteAt s1.res.payload 0 f32neg2800 }
      else s1.res)
    else s1.res
  let r3 :=
    if t = 20 ∧ isBakedLight = true ∧ r2.tag = "FHEI" then
      { r2 with tag := String.mk (f32neg2800.map Char.ofNat) }
    else r2
  if s1.partF && (s1.visF || s1.reflF) then forceBoolFalse r3 else r3

/-- All records of an item patched in place. -/
def patchItem (env : ExportEnv) (t : Int) (name : String)
    (isBaked isBakedLight : Bool) (rs : List BiffRecord) : List BiffRecord :=
  rs.map (patchRecord env t name isBaked isBakedLight)

/-! ## Per-item classification (vlm_export.py:122-240) -/

/-- The item-kind table of vlm_export.py:119-120; an item type is known
when it indexes into this table. -/
def prefixTable : List String :=
  ["Wall", "Flipper", "Timer", "Plunger", "Text", "Bumper", "Trigger", "Light",
   "Kicker", "", "Gate", "Spinner", "Ramp", "Table", "LightCenter", "DragPoint",
   "Collection", "DispReel", "LightSeq", "Prim", "Flasher", "Rubber", "Target"]

/-- The item name: the first loop of the item pass scans to the first
`NAME` record and decodes a wide string, defaulting to "unknown". -/
def findItemName (rs : List BiffRecord) : String :=
  match rs.find? (fun r => r.tag == "NAME") with
  | some r => decodeWide r.payload
  | none => "unknown"

/-- The texture references of an item: the strings of its `IMAG`, `SIMG`
and `IMAB` records, in record order. -/
def collectImages (rs : List BiffRecord) : List String :=
  (rs.filter (fun r => r.tag == "IMAG" || r.tag == "SIMG" || r.tag == "IMAB")).map
    (fun r => decodeStr r.payload)

/-- The `is_physics` flag: starts true, each `CLDR`/`CLDW` record overwrites
it with the record's boolean, each `ISTO` record clears it when the item is
a toy. -/
def computeIsPhysics (rs : List BiffRecord) : Bool :=
  rs.foldl (fun acc r =>
    if r.tag = "CLDR" ∨ r.tag = "CLDW" then decodeBool r.payload
    else if r.tag = "ISTO" then acc && !(decodeBool r.payload)
    else acc) true

/-- A source GameItem stream: its leading 32-bit item type code and its
records. -/
structure SrcItem where
  itemType : Int
  recs : List BiffRecord
deriving DecidableEq

/-- What the item pass produces for one source item: the bytes written to
the destination (none when the item is dropped) and the names it adds to
the used / removal-candidate image sets. -/
structure ItemResult where
  written : Option (List Nat)
  usedAdd : List String
  removedAdd : List String
deriving DecidableEq

/-- One iteration of the item pass (vlm_export.py:122-240).  An unknown
item type code is copied through byte for byte with no classification,
patching or image tracking.  Otherwise the item is named, classified,
patched, and either dropped or written; its texture references go to the
removal-candidate set when the item was removed or is a baked item under a
removing mode, and to the used set otherwise. -/
def processItem (env : ExportEnv) (it : SrcItem) : ItemResult :=
  if it.itemType < 0 ∨ (prefixTable.length : Int) ≤ it.itemType then
    { written := some (itemBytes it.itemType it.recs), usedAdd := [], removedAdd := [] }
  else
    let name := findItemName it.recs
    let isBaked := env.bakedVpxObjects.contains name
    let isBakedLight := env.bakedVpxLights.contains name
    let images := collectImages it.recs
    let isPhysics := computeIsPhysics it.recs
    let patched := patchItem env it.itemType name isBaked isBakedLight it.recs
    let removeFlag :=
      ((env.mode == ExportMode.remove || env.mode == ExportMode.remove_all)
        && isBaked && !isPhysics)
      || pyStartsWith name ("VLM.") || name == "VLMTimer"
    let markRemoved :=
      removeFlag ||
      ((env.mode == ExportMode.remove || env.mode == ExportMode.remove_all) && isBaked)
    { written := if removeFlag then none else some (itemBytes it.itemType patched)
      usedAdd := if markRemoved then [] else images
      removedAdd := if markRemoved then images else [] }

/-! ## Stream renumbering and the image pass
(vlm_export.py:234-240 and 377-399) -/

/-- Destination stream numbering: each written stream takes the next
counter value, dropped streams advance no counter.  Both the GameItem and
the Image loop instantiate this pattern. -/
def writeSeq : List (Option (List Nat)) → Nat → List (Nat × List Nat)
  | [], _ => []
  | none :: rest, n => writeSeq rest n
  | some bs :: rest, n => (n, bs) :: writeSeq rest (n + 1)

/-- Accumulated outcome of the whole item pass. -/
structure ItemsPhase where
  written : List (Nat × List Nat)
  used : List String
  removed : List String

/-- The item pass over all source GameItem streams: destination streams
with their indices, and the two image bookkeeping sets. -/
def runItems (env : ExportEnv) (items : List SrcItem) : ItemsPhase :=
  { written := writeSeq (items.map (fun it => (processItem env it).written)) 0
    used := (items.map (fun it => (processItem env it).usedAdd)).flatten
    removed := (items.map (fun it => (processItem env it).removedAdd)).flatten }

/-- The name of an image stream: scan to its `NAME` record
(vlm_export.py:383-389). -/
def imageNameOf (rs : List BiffRecord) : String :=
  match rs.find? (fun r => r.tag == "NAME") with
  | some r => decodeStr r.payload
  | none => "unknown"

/-- The image removal decision of vlm_export.py:390-391: VLM-prefixed
images always go; otherwise an image goes only under `remove_all`, when it
is a removal candidate that no kept item marked as used. -/
def imageRemoveDecision (mode : ExportMode) (used removed : List String)
    (nm : String) : Bool :=
  pyStartsWith nm ("VLM.")
    || (mode == ExportMode.remove_all && !(used.contains nm) && removed.contains nm)

/-- The image pass over all source Image streams (vlm_export.py:377-399):
kept streams are copied and renumbered densely. -/
def runImages (mode : ExportMode) (used removed : List String)
    (imgs : List (List BiffRecord)) : List (Nat × List Nat) :=
  writeSeq (imgs.map (fun rs =>
    if imageRemoveDecision mode used removed (imageNameOf rs) then none
    else some (streamBytes rs))) 0

/-! ## Material table synthesis (vlm_export.py:453-488 and 643-716) -/

/-- One visual material record of the `MATE` table: a 32-byte NUL-padded
name field and 44 bytes of parameters (11 32-bit fields). -/
structure MatRec where
  name32 : List Nat
  rest44 : List Nat
deriving DecidableEq

/-- The three presence flags gathered while scanning the `MATE` records
(vlm_export.py:453 and 480-488). -/
structure MatFlags where
  hasSolid : Bool
  hasActive : Bool
  hasLight : Bool
deriving DecidableEq

/-- One step of the `MATE` scan: `get_str(32).rstrip` the name and compare
it against the literals of vlm_export.py:482-487 — note the third literal
is `VLM.Light`, not `VLM.Lightmap`. -/
def scanMatStep (f : MatFlags) (r : MatRec) : MatFlags :=
  let n := rstrip0 r.name32
  if n = asciiOf ("VLM.Bake.Solid") then { f with hasSolid := true }
  else if n = asciiOf ("VLM.Bake.Active") then { f with hasActive := true }
  else if n = asciiOf ("VLM.Light") then { f with hasLight := true }
  else f

/-- The flags after scanning the whole material table. -/
def scanMatFlags (recs : List MatRec) : MatFlags :=
  recs.foldl scanMatStep ⟨false, false, false⟩

/-- IEEE-754 single-precision little-endian bytes of 0.0. -/
def f32zero : List Nat := [0, 0, 0, 0]

/-- IEEE-754 single-precision little-endian bytes of 1.0. -/
def f32one : List Nat := [0, 0, 128, 63]

/-- The fixed-layout visual record appended for `VLM.Bake.Solid`
(vlm_export.py:649-661). -/
def solidVisualMat : List Nat :=
  asciiPad32 ("VLM.Bake.Solid") ++ u32le 0x7F7F7F ++ u32le 0 ++ u32le 0 ++
    f32zero ++ u32le 0 ++ f32zero ++ u32le 0 ++ f32zero ++ u32le 0x0c ++ f32one ++ u32le 0

/-- The fixed-layout visual record appended for `VLM.Bake.Active`
(vlm_export.py:668-680). -/
def activeVisualMat : List Nat :=
  asciiPad32 ("VLM.Bake.Active") ++ u32le 0x7F7F7F ++ u32le 0 ++ u32le 0 ++
    f32zero ++ u32le 0 ++ f32zero ++ u32le 0 ++ f32zero ++ u32le 0x0c ++ f32one ++ u32le 1

/-- The fixed-layout visual record appended for `VLM.Lightmap`
(vlm_export.py:687-699). -/
def lightVisualMat : List Nat :=
  asciiPad32 ("VLM.Lightmap") ++ u32le 0x7F7F7F ++ u32le 0 ++ u32le 0 ++
    f32zero ++ u32le 0 ++ f32zero ++ u32le 0 ++ f32zero ++ u32le 0x0c ++ f32one ++ u32le 1

/-- The fixed-layout physics record appended for a synthesized material:
the padded name and four zero floats (vlm_export.py:662-665 etc.). -/
def physMatBytes (nm : String) : List Nat :=
  asciiPad32 nm ++ f32zero ++ f32zero ++ f32zero ++ f32zero

/-- `n_material_to_add` (vlm_export.py:644-686). -/
def nMaterialToAdd (f : MatFlags) : Nat :=
  (if f.hasSolid then 0 else 1) + (if f.hasActive then 0 else 1) +
    (if f.hasLight then 0 else 1)

/-- The bytes spliced into the visual `MATE` table at `mate_pos`. -/
def newVisualMatBytes (f : MatFlags) : List Nat :=
  (if f.hasSolid then [] else solidVisualMat) ++
    (if f.hasActive then [] else activeVisualMat) ++
    (if f.hasLight then [] else lightVisualMat)

/-- The bytes spliced into the physics `PHMA` table at `phma_pos`. -/
def newPhysicsMatBytes (f : MatFlags) : List Nat :=
  (if f.hasSolid then [] else physMatBytes ("VLM.Bake.Solid")) ++
    (if f.hasActive then [] else physMatBytes ("VLM.Bake.Active")) ++
    (if f.hasLight then [] else physMatBytes ("VLM.Lightmap"))

/-- The material count written back over the `MASI` payload
(vlm_export.py:705-706): the declared count plus the number of records
synthesized. -/
def writtenMaterialCount (recs : List MatRec) : Nat :=
  recs.length + nMaterialToAdd (scanMatFlags recs)

/-- The visual table after the splice: the new bytes are inserted at
`mate_pos`, the start of the first material record, so the original
records follow them unchanged. -/
def mergedVisualMatBytes (recs : List MatRec) : List Nat :=
  newVisualMatBytes (scanMatFlags recs) ++
    (recs.map (fun r => r.name32 ++ r.rest44)).flatten

/-- The three well-known material names of the specification. -/
def vlmMaterialNames : List String :=
  ["VLM.Bake.Solid", "VLM.Bake.Active", "VLM.Lightmap"]

/-- Modelled from the spec: the well-known names absent from the source
material table, which are the ones the merge is supposed to synthesize. -/
def missingVlmMaterials (recs : List MatRec) : List String :=
  vlmMaterialNames.filter (fun s => !(recs.any (fun r => rstrip0 r.name32 == asciiOf s)))

/-- A material record with the given name and zeroed parameters. -/
def mkMatRec (nm : String) : MatRec :=
  { name32 := asciiPad32 nm, rest44 := List.replicate 44 0 }

/-- A source material table that already holds all three well-known
materials, e.g. the output of a previous export. -/
def fullMatTable : List MatRec :=
  [mkMatRec ("VLM.Bake.Solid"), mkMatRec ("VLM.Bake.Active"), mkMatRec ("VLM.Lightmap")]

/-! ## Bake mesh encoding (vlm_export.py:310-349) -/

/-- A buffer as written to the stream: always the deflate compression of
its raw bytes (`zlib.compress`). -/
inductive ZBuf
  | deflate (raw : List Nat)
deriving DecidableEq

/-- Vertex deduplication state: the `vert_dict` (vertex tuple to index, in
first-seen order) and the index list. -/
structure VertAcc (V : Type) where
  dict : List (V × Nat)
  idxs : List Nat

/-- One loop vertex added to the mesh (vlm_export.py:318-331): an exact
tuple already seen re-uses its index, a new tuple takes the next one. -/
def addVertex [DecidableEq V] (acc : VertAcc V) (v : V) : VertAcc V :=
  match acc.dict.find? (fun p => p.1 == v) with
  | some p => { acc with idxs := acc.idxs ++ [p.2] }
  | none => { dict := acc.dict ++ [(v, acc.dict.length)], idxs := acc.idxs ++ [acc.dict.length] }

/-- Deduplicate the loop vertices of a mesh. -/
def buildMesh [DecidableEq V] (loops : List V) : VertAcc V :=
  loops.foldl addVertex { dict := [], idxs := [] }

/-- `n_vertices`, the deduplicated vertex count. -/
def numVertices [DecidableEq V] (loops : List V) : Nat := (buildMesh loops).dict.length

/-- The index buffer bytes before compression: 32-bit entries when `wide`,
16-bit entries otherwise (`struct.pack` with I or H). -/
def packIndices (wide : Bool) (idxs : List Nat) : List Nat :=
  (idxs.map (fun i => if wide then u32le i else u16le i)).flatten

/-- The two mesh buffers as written (vlm_export.py:335-349): deflated
vertex bytes, and deflated index bytes whose width is 32-bit when
`n_vertices > 65535` and 16-bit otherwise.  `vbytes` gives the packed
bytes of one vertex tuple. -/
structure MeshBuffers where
  idxWidthBits : Nat
  vertexBuf : ZBuf
  indexBuf : ZBuf
deriving DecidableEq

/-- Encode one bake mesh: deduplicate, choose the index width from the
deduplicated vertex count, deflate both buffers. -/
def encodeMesh (vbytes : List Int → List Nat) (loops : List (List Int)) : MeshBuffers :=
  let m := buildMesh loops
  let wide := decide (m.dict.length > 65535)
  { idxWidthBits := if m.dict.length > 65535 then 32 else 16
    vertexBuf := ZBuf.deflate ((m.dict.map (fun p => vbytes p.1)).flatten)
    indexBuf := ZBuf.deflate (packIndices wide m.idxs) }

/-! ## Script synchronization patch (vlm_export.py:539-571) -/

/-- A Python runtime error, as far as the patch loop can raise one. -/
inductive PyError
  | attributeError (module attr : String)
deriving DecidableEq

/-- Modelled from the Python standard library: the attributes of the
`math` module that matter here.  The module has `fabs`; it has no
attribute `abs`, so `math.abs` raises AttributeError when evaluated. -/
def pyMathAttrs : List String :=
  ["fabs", "sqrt", "floor", "ceil", "pow", "exp", "log", "sin", "cos", "tan",
   "degrees", "radians", "pi", "e"]

/-- One desired synchronization statement, the tuples built at
vlm_export.py:530-537: vpx reference (none for a plain hide), mode
(0 light, 1 flasher, 2 hide), object reference, color-sync flag and
brightness (always 1 in the source). -/
structure SyncUpdate where
  vpxRef : Option String
  updMode : Nat
  objRef : String
  syncColor : Bool
  brightness : Nat
deriving DecidableEq

/-- `push_update` (vlm_export.py:504-510), with the intensity already
rendered to text. -/
def pushUpdate (m : Nat) (vpxRef : Option String) (objRef : String)
    (intensity : String) (syncColor : Bool) : String :=
  if m = 0 then
    "\tUpdateLightMapFromLight " ++ vpxRef.getD "" ++ ", " ++ objRef ++ ", " ++
      intensity ++ ", " ++ (if syncColor then "True" else "False") ++ "\n"
  else if m = 1 then
    "\tUpdateLightMapFromFlasher " ++ vpxRef.getD "" ++ ", " ++ objRef ++ ", " ++
      intensity ++ ", " ++ (if syncColor then "True" else "False") ++ "\n"
  else
    "\t" ++ objRef ++ ".Visible = False\n"

/-- Handling of a line inside `Sub VLMTimer_Timer` that matched one of the
managed-statement regexes (vlm_export.py:563-571), given its captured
groups.  When a desired update matches the line's vpx reference, the
source removes it from the list and then evaluates
`math.abs(intensity - 100 * upd[4]) > 0.1` (line 568): the attribute
lookup `math.abs` fails, so the branch raises before any tolerance
comparison or rewrite happens.  An unmatched managed line is commented
out; this returns the surviving updates and the accumulated rewritten
script. -/
def handleManagedLine (vpx_ref _obj_ref intensity lineStripped : String)
    (updates : List SyncUpdate) (codeAcc : String) :
    Except PyError (List SyncUpdate × String) :=
  match updates.find? (fun u => u.vpxRef == some vpx_ref) with
  | some upd =>
    if pyMathAttrs.contains ("abs") then
      Except.ok (updates.erase upd,
        codeAcc ++ pushUpdate upd.updMode upd.vpxRef upd.objRef intensity upd.syncColor)
    else
      Except.error (PyError.attributeError "math" "abs")
  | none =>
    Except.ok (updates, codeAcc ++ "  " ++ String.singleton (Char.ofNat 39) ++ " " ++
      lineStripped ++ "\n")

/-! ## Nestmap texture emission and the final commit
(vlm_export.py:401-439 and 755-761) -/

/-- One bake result as far as the texture loop reads it: its nestmap group
index and whether its HDR range exceeds 1.0. -/
structure BakeRes where
  nestmap : Int
  hdrGt1 : Bool
deriving DecidableEq

/-- The bake results of one nestmap group
(`[obj for obj in result_col.all_objects if obj.vlmSettings.bake_nestmap == nestmap_index]`). -/
def groupObjs (objs : List BakeRes) (idx : Nat) : List BakeRes :=
  objs.filter (fun o => o.nestmap == (idx : Int))

/-- A group is HDR when some of its objects has an HDR range above 1.0. -/
def groupIsHdr (g : List BakeRes) : Bool := g.any (fun o => o.hdrGt1)

/-- The packed-texture path probed for a group (vlm_export.py:408-409),
relative to the bake path. -/
def nestmapPathOf (idx : Nat) (hdr : Bool) : String :=
  "Export/Nestmap " ++ toString idx ++ (if hdr then ".exr" else ".png")

/-- The texture loop (vlm_export.py:402-439): scan group indices up from
0, stop at the first index with no bake result, abort with an error when
the packed-texture file of a scanned group is absent.  `fuel` bounds the
scan; `exportRun` passes more fuel than the loop can consume.  Returns
the number of images appended. -/
def nestmapLoop (ex : String → Bool) (objs : List BakeRes) :
    Nat → Nat → Nat → Except String Nat
  | 0, _, n => Except.ok n
  | fuel + 1, idx, n =>
    let g := groupObjs objs idx
    if g.isEmpty then Except.ok n
    else if ex (nestmapPathOf idx (groupIsHdr g)) then
      nestmapLoop ex objs fuel (idx + 1) (n + 1)
    else
      Except.error (nestmapPathOf idx (groupIsHdr g))

/-- Outcome of one export run: whether it returned CANCELLED and whether
the transacted destination storage was committed. -/
structure ExportOutcome where
  cancelled : Bool
  committed : Bool
deriving DecidableEq

/-- Control-flow model of `export_vpx` around the texture loop: the item
and image passes before it and the reference-copy pass after it contain
no early return, and `dst_storage.Commit` (vlm_export.py:761) runs only
after every phase finished; the missing-file error returns CANCELLED
(vlm_export.py:410-412) with the destination still uncommitted. -/
def exportRun (ex : String → Bool) (objs : List BakeRes) : ExportOutcome :=
  match nestmapLoop ex objs (objs.length + 1) 0 0 with
  | Except.error _ => { cancelled := true, committed := false }
  | Except.ok _ => { cancelled := false, committed := true }

/-! ## Concrete example inputs used by witnesses and counterexamples -/

/-- Double-byte encoding of a string (the wide-string payload body). -/
def wideBytes (str : String) : List Nat :=
  (str.toList.map (fun c => [c.toNat % 256, c.toNat / 256 % 256])).flatten

/-- A wide-string record payload: byte count then double-byte characters. -/
def wideStrPayload (str : String) : List Nat :=
  u32le (wideBytes str).length ++ wideBytes str

/-- A string record payload: byte count then single-byte characters. -/
def strPayload (str : String) : List Nat :=
  u32le (asciiOf str).length ++ asciiOf str

/-- An export environment with the given mode and baked object names and
nothing else configured. -/
def mkEnv (mode : ExportMode) (baked : List String) : ExportEnv :=
  { mode := mode, bakedVpxObjects := baked, bakedVpxLights := [],
    bakeObjs := [], bakeColNames := [], playfieldCol := false }

/-- A non-collidable wall named Wall1 referencing the texture
"background". -/
def exWallItem : SrcItem :=
  { itemType := 0
    recs := [⟨"NAME", wideStrPayload ("Wall1")⟩,
             ⟨"CLDR", u32le 0⟩,
             ⟨"IMAG", strPayload ("background")⟩] }

/-- The environment of Scenario B: mode `remove`, Wall1 baked. -/
def exEnvB : ExportEnv := mkEnv ExportMode.remove ["Wall1"]

/-- A baked, non-collidable item with the reserved VLM. name prefix,
referencing an image that itself has the reserved prefix. -/
def exVlmItem : SrcItem :=
  { itemType := 0
    recs := [⟨"NAME", wideStrPayload ("VLM.X")⟩,
             ⟨"CLDR", u32le 0⟩,
             ⟨"IMAG", strPayload ("VLM.Foo")⟩] }

/-- The environment of the C3 counterexample: mode `remove`, VLM.X baked. -/
def exEnvCex : ExportEnv := mkEnv ExportMode.remove ["VLM.X"]

/-- A collidable wall named Wall1. -/
def exPhysItem : SrcItem :=
  { itemType := 0
    recs := [⟨"NAME", wideStrPayload ("Wall1")⟩, ⟨"CLDR", u32le 1⟩] }

/-- The environment of the C10 witness: the most aggressive mode with
Wall1 baked. -/
def exEnvRA : ExportEnv := mkEnv ExportMode.remove_all ["Wall1"]

/-- An item whose leading type code (23) is one past the known kind
table. -/
def exUnknownItem : SrcItem :=
  { itemType := 23
    recs := [⟨"NAME", wideStrPayload ("Mystery")⟩, ⟨"IMAG", strPayload ("tex0")⟩] }

/-- The environment of the C6 witness: a bake result covering only the
Ring subpart of Bumper1, Bumper1 itself in the baked object list. -/
def exEnvBumper : ExportEnv :=
  { mode := ExportMode.remove_all, bakedVpxObjects := ["Bumper1"],
    bakedVpxLights := [], bakeObjs := [⟨"Bumper1", "Ring"⟩],
    bakeColNames := [], playfieldCol := false }

/-- The records of a bumper with base, ring, cap and skirt all visible. -/
def exBumperRecs : List BiffRecord :=
  [⟨"NAME", wideStrPayload ("Bumper1")⟩,
   ⟨"BSVS", u32le 1⟩, ⟨"RIVS", u32le 1⟩, ⟨"CAVI", u32le 1⟩, ⟨"SKVS", u32le 1⟩,
   ⟨"REEN", u32le 1⟩]

/-- A single bake result in nestmap group 1 and none in group 0. -/
def exGapObjs : List BakeRes := [⟨1, false⟩]

/-- A single bake result in nestmap group 0. -/
def exSingleNest : List BakeRes := [⟨0, false⟩]

/-- A disk on which no packed-texture file exists. -/
def exNoFiles : String → Bool := fun _ => false

/-- The per-record patch with the light/flasher synchronization writes
factored out: stage 1 dispatch followed by the final `put_bool(False)` of
vlm_export.py:215-217.  `patchRecord` coincides with this whenever the
item is not a baked light of type 7 or a baked-light flasher of type
20. -/
def patchCore (env : ExportEnv) (t : Int) (name : String) (isBaked : Bool)
    (r : BiffRecord) : BiffRecord :=
  let s1 := patchStage1 env t name isBaked r
  if s1.partF && (s1.visF || s1.reflF) then forceBoolFalse s1.res else s1.res

/-- The tags whose 4-byte payload the patch forces to false for an item
of type `t` named `name`: the visibility/reflection fields relevant to
the item's kind and baked subpart (wall top/side, ramp/rubber,
primitive/hit-target, flasher visibility, gate/spinner bracket support
when the bracket object is baked, bumper cap/base/ring/skirt per baked
subpart, and reflection for any baked item). -/
def forcedTag (env : ExportEnv) (t : Int) (name : String) (bk : Bool)
    (tag : String) : Bool :=
  (tag == "REEN" && bk)
  || (t == 0 && (tag == "VSBL" || tag == "SVBL") && bk)
  || ((t == 12 || t == 21) && tag == "RVIS" && bk)
  || ((t == 19 || t == 22) && tag == "TVIS" && bk)
  || (t == 20 && tag == "FVIS" && bk)
  || (t == 10 && tag == "GSUP" && env.bakeColNames.contains ("VPX.Gate.Bracket." ++ name))
  || (t == 11 && tag == "SSUP" && env.bakeColNames.contains ("VPX.Spinner.Bracket." ++ name))
  || (t == 5 && tag == "CAVI" && subpartBaked env name "Cap")
  || (t == 5 && tag == "BSVS" && subpartBaked env name "Base")
  || (t == 5 && tag == "RIVS" && subpartBaked env name "Ring")
  || (t == 5 && tag == "SKVS" && subpartBaked env name "Socket")

/-- The environment of the C6 counterexample: a configured playfield
collection, with `playfield_mesh` in the baked object list the way
vlm_export.py:112 appends it, under the non-removing default mode. -/
def exEnvPF : ExportEnv :=
  { mode := ExportMode.default, bakedVpxObjects := ["playfield_mesh"],
    bakedVpxLights := [], bakeObjs := [], bakeColNames := [], playfieldCol := true }

/-- A collidable primitive named `playfield_mesh`. -/
def exPlayfieldItem : SrcItem :=
  { itemType := 19
    recs := [⟨"NAME", wideStrPayload ("playfield_mesh")⟩, ⟨"CLDR", u32le 1⟩] }

/-! # Theorems -/

/-! ## Helper lemmas on the byte primitives -/

theorem u32le_length (n : Nat) : (u32le n).length = 4 := rfl

theorem decodeU32_u32le (n : Nat) (h : n < 4294967296) : decodeU32 (u32le n) = n := by
  simp only [decodeU32, u32le, byteAt, List.getD]
  simp only [List.get?_cons_zero, List.get?_cons_succ, Option.getD_some]
  omega

theorem take_four_append (l s : List Nat) (h : l.length = 4) : (l ++ s).take 4 = l := by
  rw [← h, List.take_left]

theorem drop_four_append (l s : List Nat) (h : l.length = 4) : (l ++ s).drop 4 = s := by
  rw [← h, List.drop_left]

/-- C1 — When hashing a record-structured stream flagged as hashed, the
IntegrityHasher is fed, for every record except the automation-script
record, the record's tag and payload bytes with any length prefix
excluded, in original record order; for the one record with tag `CODE` it
is fed the 4-byte tag and the script string content, with the declared
length field excluded from the hashed bytes. -/
theorem c1_hash_feed (rs : List BiffRecord) (h : ∀ r ∈ rs, codeWellFormed r) :
    streamHashFeed rs =
      (rs.map (fun r =>
        tagBytes r.tag ++ (if r.tag = "CODE" then r.payload.drop 4 else r.payload))).flatten := by
  unfold streamHashFeed
  congr 1
  apply List.map_congr_left
  intro r hr
  by_cases hc : r.tag = "CODE"
  · obtain ⟨s, hs, hlt⟩ := h r hr hc
    simp only [hashedRecordFeed, hc, if_pos rfl, hs]
    rw [take_four_append _ _ (u32le_length _), drop_four_append _ _ (u32le_length _),
      decodeU32_u32le _ hlt, List.take_length]
    simp
  · simp [hashedRecordFeed, hc]

/-- Witness for C1 at a concrete two-record stream with a `CODE` record. -/
theorem c1_hash_feed_witness :
    (∀ r ∈ [⟨"NAME", [4, 0, 0, 0, 65, 66, 67, 68]⟩,
            (⟨"CODE", u32le 3 ++ [88, 89, 90]⟩ : BiffRecord)], codeWellFormed r) ∧
    streamHashFeed [⟨"NAME", [4, 0, 0, 0, 65, 66, 67, 68]⟩,
            (⟨"CODE", u32le 3 ++ [88, 89, 90]⟩ : BiffRecord)] =
      ([⟨"NAME", [4, 0, 0, 0, 65, 66, 67, 68]⟩,
            (⟨"CODE", u32le 3 ++ [88, 89, 90]⟩ : BiffRecord)].map (fun r =>
        tagBytes r.tag ++ (if r.tag = "CODE" then r.payload.drop 4 else r.payload))).flatten := by
  refine ⟨?_, c1_hash_feed _ ?_⟩ <;>
  · intro r hr
    rcases List.mem_cons.mp hr with h | hr2
    · subst h; intro hc; simp at hc
    · rcases List.mem_cons.mp hr2 with h | h
      · subst h; intro _; exact ⟨[88, 89, 90], rfl, by norm_num⟩
      · exact absurd h (List.not_mem_nil r)


/-- C2 — evaluation at the failing input: on a material table that already
holds all three well-known materials nothing is missing, yet the scan of
vlm_export.py:480-488 tests the name `VLM.Light` instead of
`VLM.Lightmap`, so the merge synthesizes a duplicate `VLM.Lightmap`
record and writes a declared count of original + 1 where the claim
requires original + 0. -/
theorem c2_duplicate_material_eval :
    missingVlmMaterials fullMatTable = [] ∧
    writtenMaterialCount fullMatTable = fullMatTable.length + 1 ∧
    newVisualMatBytes (scanMatFlags fullMatTable) = lightVisualMat := by
  refine ⟨by decide, by decide, by decide⟩

/-- C5 — For every synthesized bake mesh, the index buffer is encoded
with 16-bit indices when the deduplicated vertex count is strictly below
65536 and with 32-bit indices when it is 65536 or more (so 65536 vertices
give 32-bit and 65535 give 16-bit indices), and both vertex and index
buffers are deflate-compressed before being written. -/
theorem c5_index_width_and_compression (vbytes : List Int → List Nat)
    (loops : List (List Int)) :
    ((encodeMesh vbytes loops).idxWidthBits =
      if numVertices loops < 65536 then 16 else 32) ∧
    (∃ raw, (encodeMesh vbytes loops).vertexBuf = ZBuf.deflate raw) ∧
    (∃ raw, (encodeMesh vbytes loops).indexBuf = ZBuf.deflate raw) := by
  refine ⟨?_, ⟨_, rfl⟩, ⟨_, rfl⟩⟩
  show (if (buildMesh loops).dict.length > 65535 then 32 else 16) =
    if numVertices loops < 65536 then 16 else 32
  unfold numVertices
  by_cases h : (buildMesh loops).dict.length > 65535
  · rw [if_pos h, if_neg (by omega)]
  · rw [if_neg h, if_pos (by omega)]

/-- C7 — evaluation at the failing input: a managed statement of the
synchronization routine that matches a desired update makes the patch
evaluate `math.abs(...)` (vlm_export.py:568); the `math` module has no
attribute `abs`, so the code raises AttributeError instead of comparing
the user-supplied intensity against the computed one with tolerance
0.1. -/
theorem c7_sync_tolerance_crash :
    handleManagedLine "l1" "VLM_lm1" "100"
        "UpdateLightMapFromLight l1, VLM_lm1, 100, False"
        [{ vpxRef := some "l1", updMode := 0, objRef := "VLM_lm1",
           syncColor := false, brightness := 1 }] "" =
      Except.error (PyError.attributeError "math" "abs") := rfl

/-- C8 — For every source GameItem stream whose leading 32-bit item-type
code is outside the known kind table, the merge does not fail: the item's
bytes are copied to the destination byte-for-byte unmodified, with no
classification, patching, or image tracking applied to it. -/
theorem c8_unknown_kind_copied (env : ExportEnv) (it : SrcItem)
    (h : it.itemType < 0 ∨ (prefixTable.length : Int) ≤ it.itemType) :
    processItem env it =
      { written := some (itemBytes it.itemType it.recs), usedAdd := [], removedAdd := [] } := by
  unfold processItem
  rw [if_pos h]

/-- Witness for C8 at item type 23, one past the kind table. -/
theorem c8_unknown_kind_copied_witness :
    (exUnknownItem.itemType < 0 ∨ (prefixTable.length : Int) ≤ exUnknownItem.itemType) ∧
    processItem exEnvB exUnknownItem =
      { written := some (itemBytes exUnknownItem.itemType exUnknownItem.recs),
        usedAdd := [], removedAdd := [] } :=
  ⟨by decide, c8_unknown_kind_copied exEnvB exUnknownItem (by decide)⟩

theorem writeSeq_map_snd (l : List (Option (List Nat))) (n : Nat) :
    (writeSeq l n).map Prod.snd = l.filterMap id := by
  induction l generalizing n with
  | nil => rfl
  | cons a rest ih => cases a <;> simp [writeSeq, ih]

theorem writeSeq_map_fst (l : List (Option (List Nat))) (n : Nat) :
    (writeSeq l n).map Prod.fst = List.range' n (l.filterMap id).length := by
  induction l generalizing n with
  | nil => rfl
  | cons a rest ih =>
    cases a with
    | none => simpa [writeSeq] using ih n
    | some bs => simp [writeSeq, ih, List.range'_succ]

theorem writeSeq_length (l : List (Option (List Nat))) (n : Nat) :
    (writeSeq l n).length = (l.filterMap id).length := by
  rw [← List.length_map (writeSeq l n) Prod.snd, writeSeq_map_snd]

/-- C4 — For every merge run and every stream category (GameItem, Image),
the destination stream indices are contiguous from 0 with no gaps
regardless of which source indices were dropped, and the surviving source
streams appear at destination indices in their original relative order. -/
theorem c4_dense_renumbering (env : ExportEnv) (items : List SrcItem)
    (mode : ExportMode) (used removed : List String) (imgs : List (List BiffRecord)) :
    ((runItems env items).written.map Prod.fst =
        List.range (runItems env items).written.length ∧
      (runItems env items).written.map Prod.snd =
        items.filterMap (fun it => (processItem env it).written)) ∧
    ((runImages mode used removed imgs).map Prod.fst =
        List.range (runImages mode used removed imgs).length ∧
      (runImages mode used removed imgs).map Prod.snd =
        imgs.filterMap (fun rs =>
          if imageRemoveDecision mode used removed (imageNameOf rs) then none
          else some (streamBytes rs))) := by
  refine ⟨⟨?_, ?_⟩, ⟨?_, ?_⟩⟩ <;>
    simp [runItems, runImages, writeSeq_map_fst, writeSeq_map_snd, writeSeq_length,
      List.range_eq_range', List.filterMap_map, Function.comp]

/-- C3 (amended) — For every source image whose name was recorded as a
removal candidate and does not carry the reserved `VLM.` name prefix, the
image stream is deleted if and only if the export mode is `remove_all`
and no kept item recorded that name as used; in particular under mode
`remove` such an image is retained. -/
theorem c3_image_retention_iff (env : ExportEnv) (items : List SrcItem) (nm : String)
    (hpre : pyStartsWith nm ("VLM.") = false)
    (hcand : nm ∈ (runItems env items).removed) :
    imageRemoveDecision env.mode (runItems env items).used (runItems env items).removed nm = true
      ↔ (env.mode = ExportMode.remove_all ∧ nm ∉ (runItems env items).used) := by
  unfold imageRemoveDecision
  rw [hpre]
  simp [List.elem_iff, hcand, beq_iff_eq]

/-- C3 counterexample — a removal-candidate image whose name starts with
`VLM.` is deleted even under export mode `remove`, where the claim says
it is retained. -/
theorem c3_image_retention_counterexample :
    exEnvCex.mode = ExportMode.remove ∧
    ExportMode.remove ≠ ExportMode.remove_all ∧
    "VLM.Foo" ∈ (runItems exEnvCex [exVlmItem]).removed ∧
    imageRemoveDecision exEnvCex.mode (runItems exEnvCex [exVlmItem]).used
      (runItems exEnvCex [exVlmItem]).removed "VLM.Foo" = true := by
  refine ⟨rfl, by decide, by decide, by decide⟩

/-- Witness for C3 at Scenario B: the texture "background", referenced
only by the dropped wall, is retained under mode `remove`. -/
theorem c3_image_retention_witness :
    (pyStartsWith "background" ("VLM.") = false) ∧
    "background" ∈ (runItems exEnvB [exWallItem]).removed ∧
    imageRemoveDecision exEnvB.mode (runItems exEnvB [exWallItem]).used
      (runItems exEnvB [exWallItem]).removed "background" = false := by
  refine ⟨by decide, by decide, ?_⟩
  have h := c3_image_retention_iff exEnvB [exWallItem] "background" (by decide) (by decide)
  refine Bool.eq_false_iff.mpr (fun hd => ?_)
  exact absurd (h.mp hd).1 (by decide)

/-- C10 — For every baked item whose record marks it as participating in
physics (per the CLDR/CLDW/ISTO fold), the item record is never dropped
even under modes `remove` or `remove_all` unless its name has the `VLM.`
prefix or is `VLMTimer`; it is kept, written with its visibility tags
patched in place. -/
theorem c10_physical_item_kept (env : ExportEnv) (it : SrcItem)
    (h0 : ¬(it.itemType < 0 ∨ (prefixTable.length : Int) ≤ it.itemType))
    (h1 : computeIsPhysics it.recs = true)
    (h2 : pyStartsWith (findItemName it.recs) ("VLM.") = false)
    (h3 : findItemName it.recs ≠ "VLMTimer") :
    (processItem env it).written =
      some (itemBytes it.itemType
        (patchItem env it.itemType (findItemName it.recs)
          (env.bakedVpxObjects.contains (findItemName it.recs))
          (env.bakedVpxLights.contains (findItemName it.recs)) it.recs)) := by
  unfold processItem
  rw [if_neg h0]
  simp [h1, h2, h3]

/-- Witness for C10: a collidable baked wall under `remove_all` is kept. -/
theorem c10_physical_item_kept_witness :
    (¬(exPhysItem.itemType < 0 ∨ (prefixTable.length : Int) ≤ exPhysItem.itemType)) ∧
    computeIsPhysics exPhysItem.recs = true ∧
    (processItem exEnvRA exPhysItem).written =
      some (itemBytes exPhysItem.itemType
        (patchItem exEnvRA exPhysItem.itemType (findItemName exPhysItem.recs)
          (exEnvRA.bakedVpxObjects.contains (findItemName exPhysItem.recs))
          (exEnvRA.bakedVpxLights.contains (findItemName exPhysItem.recs)) exPhysItem.recs)) :=
  ⟨by decide, by decide,
    c10_physical_item_kept exEnvRA exPhysItem (by decide) (by decide) (by decide) (by decide)⟩

theorem nestmapLoop_error (ex : String → Bool) (objs : List BakeRes) (g : Nat) :
    ∀ fuel idx n, idx ≤ g → g - idx < fuel →
    (∀ j, idx ≤ j → j ≤ g → (groupObjs objs j).isEmpty = false) →
    ex (nestmapPathOf g (groupIsHdr (groupObjs objs g))) = false →
    ∃ e, nestmapLoop ex objs fuel idx n = Except.error e := by
  intro fuel
  induction fuel with
  | zero => intro idx n _ hf _ _; omega
  | succ fuel ih =>
    intro idx n hig hf hall hmiss
    have hne : (groupObjs objs idx).isEmpty = false := hall idx le_rfl hig
    by_cases hex : ex (nestmapPathOf idx (groupIsHdr (groupObjs objs idx))) = true
    · have hlt : idx < g := by
        rcases Nat.lt_or_ge idx g with h | h
        · exact h
        · exfalso
          have : idx = g := le_antisymm hig h
          rw [this] at hex
          rw [hmiss] at hex
          exact Bool.false_ne_true hex
      obtain ⟨e, he⟩ := ih (idx + 1) (n + 1) hlt (by omega)
        (fun j hj1 hj2 => hall j (by omega) hj2) hmiss
      exact ⟨e, by simp [nestmapLoop, hne, hex, he]⟩
    · refine ⟨nestmapPathOf idx (groupIsHdr (groupObjs objs idx)), ?_⟩
      simp [nestmapLoop, hne, Bool.eq_false_iff.mpr hex]

theorem referenced_group_bound (objs : List BakeRes) (g : Nat)
    (h : ∀ j, j ≤ g → (groupObjs objs j).isEmpty = false) : g ≤ objs.length := by
  have hsub : ((List.range (g + 1)).map (Nat.cast : Nat → Int)) ⊆
      objs.map (fun o => o.nestmap) := by
    intro x hx
    simp only [List.mem_map, List.mem_range] at hx
    obtain ⟨j, hj, rfl⟩ := hx
    have hne := h j (by omega)
    rw [List.isEmpty_eq_false] at hne
    obtain ⟨o, ho⟩ := List.exists_mem_of_ne_nil _ hne
    have hmem := List.mem_filter.mp ho
    refine List.mem_map.mpr ⟨o, hmem.1, ?_⟩
    have := beq_iff_eq.mp hmem.2
    omega
  have hnd : ((List.range (g + 1)).map (Nat.cast : Nat → Int)).Nodup :=
    (List.nodup_range (g + 1)).map (fun a b hab => by exact_mod_cast hab)
  have hlen := (List.subperm_of_subset hnd hsub).length_le
  simp only [List.length_map, List.length_range] at hlen
  omega

/-- C9 (amended) — If the packed-texture file for a nestmap group `g`
referenced by kept bake results is absent on disk and every group index
up to `g` is also referenced (so the incremental scan from 0 reaches
`g`), the export aborts with an error before the destination container's
commit is called: the run returns CANCELLED and the transacted
destination storage stays uncommitted. -/
theorem c9_missing_nestmap_aborts (ex : String → Bool) (objs : List BakeRes) (g : Nat)
    (hall : ∀ j, j ≤ g → (groupObjs objs j).isEmpty = false)
    (hmiss : ex (nestmapPathOf g (groupIsHdr (groupObjs objs g))) = false) :
    (exportRun ex objs).cancelled = true ∧ (exportRun ex objs).committed = false := by
  have hg := referenced_group_bound objs g hall
  obtain ⟨e, he⟩ := nestmapLoop_error ex objs g (objs.length + 1) 0 0 (Nat.zero_le g)
    (by omega) (fun j _ hj => hall j hj) hmiss
  unfold exportRun
  rw [he]
  exact ⟨rfl, rfl⟩

/-- C9 counterexample — a bake result referencing nestmap group 1 while
group 0 is empty: the scan stops at the empty group 0, never probes the
missing file of group 1, and the export commits although the
packed-texture file of a referenced group is absent. -/
theorem c9_nestmap_gap_counterexample :
    (exGapObjs.any (fun o => o.nestmap == (1 : Int)) = true) ∧
    exNoFiles (nestmapPathOf 1 (groupIsHdr (groupObjs exGapObjs 1))) = false ∧
    exportRun exNoFiles exGapObjs = { cancelled := false, committed := true } := by
  refine ⟨rfl, rfl, rfl⟩

/-- Witness for C9: a single bake result in group 0 whose packed-texture
file is absent makes the run return CANCELLED, uncommitted. -/
theorem c9_missing_nestmap_witness :
    (∀ j, j ≤ 0 → (groupObjs exSingleNest j).isEmpty = false) ∧
    exNoFiles (nestmapPathOf 0 (groupIsHdr (groupObjs exSingleNest 0))) = false ∧
    (exportRun exNoFiles exSingleNest).cancelled = true ∧
    (exportRun exNoFiles exSingleNest).committed = false := by
  have hall : ∀ j, j ≤ 0 → (groupObjs exSingleNest j).isEmpty = false := by
    intro j hj
    have : j = 0 := Nat.le_zero.mp hj
    rw [this]
    rfl
  have h := c9_missing_nestmap_aborts exNoFiles exSingleNest 0 hall rfl
  exact ⟨hall, rfl, h.1, h.2⟩


theorem patchRecord_eq_core (env : ExportEnv) (t : Int) (name : String)
    (bk bl : Bool) (r : BiffRecord)
    (hl : t = 7 → bl = false) (hf : t = 20 → bl = false) :
    patchRecord env t name bk bl r = patchCore env t name bk r := by
  unfold patchRecord patchCore
  by_cases ht7 : t = 7
  · subst ht7
    rw [hl rfl]
    simp
  · by_cases ht20 : t = 20
    · subst ht20
      rw [hf rfl]
      simp
    · simp [ht7, ht20]

theorem patchCore_forced (env : ExportEnv) (t : Int) (name : String) (bk : Bool)
    (r : BiffRecord) (hpf : ¬(name = "playfield_mesh" ∧ env.playfieldCol = true)) :
    patchCore env t name bk r =
      if forcedTag env t name bk r.tag = true then forceBoolFalse r else r := by
  by_cases h1 : r.tag = "NAME"
  · simp [patchCore, patchStage1, forcedTag, h1, hpf]
  by_cases h2 : r.tag = "REEN"
  · cases bk <;> simp [patchCore, patchStage1, forcedTag, h1, h2]
  by_cases h3 : r.tag = "CLDR"
  · simp [patchCore, patchStage1, forcedTag, h1, h2, h3]
  by_cases h4 : r.tag = "CLDW"
  · simp [patchCore, patchStage1, forcedTag, h1, h2, h3, h4]
  by_cases h5 : r.tag = "ISTO"
  · simp [patchCore, patchStage1, forcedTag, h1, h2, h3, h4, h5]
  by_cases h6 : r.tag = "IMAG"
  · simp [patchCore, patchStage1, forcedTag, h1, h2, h3, h4, h5, h6]
  by_cases h7 : r.tag = "SIMG"
  · simp [patchCore, patchStage1, forcedTag, h1, h2, h3, h4, h5, h6, h7]
  by_cases h8 : r.tag = "IMAB"
  · simp [patchCore, patchStage1, forcedTag, h1, h2, h3, h4, h5, h6, h7, h8]
  by_cases h9 : r.tag = "VSBL"
  · by_cases ht : t = 0
    · subst ht
      cases bk <;> simp [patchCore, patchStage1, forcedTag, h1, h2, h3, h4, h5, h6, h7, h8, h9]
    · by_cases ht6 : t = 6
      · subst ht6
        simp [patchCore, patchStage1, forcedTag, h1, h2, h3, h4, h5, h6, h7, h8, h9]
      · simp [patchCore, patchStage1, forcedTag, h1, h2, h3, h4, h5, h6, h7, h8, h9, ht, ht6]
  by_cases h10 : r.tag = "SVBL"
  · by_cases ht : t = 0
    · subst ht
      cases bk <;>
        simp [patchCore, patchStage1, forcedTag, h1, h2, h3, h4, h5, h6, h7, h8, h9, h10]
    · simp [patchCore, patchStage1, forcedTag, h1, h2, h3, h4, h5, h6, h7, h8, h9, h10, ht]
  by_cases h11 : r.tag = "RVIS"
  · by_cases ht : t = 12 ∨ t = 21
    · rcases ht with h | h <;> subst h <;> cases bk <;>
        simp [patchCore, patchStage1, forcedTag, h1, h2, h3, h4, h5, h6, h7, h8, h9, h10, h11]
    · simp [patchCore, patchStage1, forcedTag, h1, h2, h3, h4, h5, h6, h7, h8, h9, h10, h11, ht]
  by_cases h12 : r.tag = "GSUP"
  · by_cases ht : t = 10
    · subst ht
      by_cases hc : ("VPX.Gate.Bracket." ++ name) ∈ env.bakeColNames <;>
        simp [patchCore, patchStage1, forcedTag, h1, h2, h3, h4, h5, h6, h7, h8, h9, h10, h11,
          h12, hc]
    · simp [patchCore, patchStage1, forcedTag, h1, h2, h3, h4, h5, h6, h7, h8, h9, h10, h11,
        h12, ht]
  by_cases h13 : r.tag = "SSUP"
  · by_cases ht : t = 11
    · subst ht
      by_cases hc : ("VPX.Spinner.Bracket." ++ name) ∈ env.bakeColNames <;>
        simp [patchCore, patchStage1, forcedTag, h1, h2, h3, h4, h5, h6, h7, h8, h9, h10, h11,
          h12, h13, hc]
    · simp [patchCore, patchStage1, forcedTag, h1, h2, h3, h4, h5, h6, h7, h8, h9, h10, h11,
        h12, h13, ht]
  by_cases h14 : r.tag = "TVIS"
  · by_cases ht : t = 19 ∨ t = 22
    · rcases ht with h | h <;> subst h <;> cases bk <;>
        simp [patchCore, patchStage1, forcedTag, h1, h2, h3, h4, h5, h6, h7, h8, h9, h10, h11,
          h12, h13, h14]
    · simp [patchCore, patchStage1, forcedTag, h1, h2, h3, h4, h5, h6, h7, h8, h9, h10, h11,
        h12, h13, h14, ht]
  by_cases h15 : r.tag = "FVIS"
  · by_cases ht : t = 20
    · subst ht
      cases bk <;>
        simp [patchCore, patchStage1, forcedTag, h1, h2, h3, h4, h5, h6, h7, h8, h9, h10, h11,
          h12, h13, h14, h15]
    · simp [patchCore, patchStage1, forcedTag, h1, h2, h3, h4, h5, h6, h7, h8, h9, h10, h11,
        h12, h13, h14, h15, ht]
  by_cases h16 : r.tag = "CAVI"
  · by_cases ht : t = 5
    · subst ht
      cases hs : subpartBaked env name "Cap" <;>
        simp [patchCore, patchStage1, forcedTag, h1, h2, h3, h4, h5, h6, h7, h8, h9, h10, h11,
          h12, h13, h14, h15, h16, hs]
    · simp [patchCore, patchStage1, forcedTag, h1, h2, h3, h4, h5, h6, h7, h8, h9, h10, h11,
        h12, h13, h14, h15, h16, ht]
  by_cases h17 : r.tag = "BSVS"
  · by_cases ht : t = 5
    · subst ht
      cases hs : subpartBaked env name "Base" <;>
        simp [patchCore, patchStage1, forcedTag, h1, h2, h3, h4, h5, h6, h7, h8, h9, h10, h11,
          h12, h13, h14, h15, h16, h17, hs]
    · simp [patchCore, patchStage1, forcedTag, h1, h2, h3, h4, h5, h6, h7, h8, h9, h10, h11,
        h12, h13, h14, h15, h16, h17, ht]
  by_cases h18 : r.tag = "RIVS"
  · by_cases ht : t = 5
    · subst ht
      cases hs : subpartBaked env name "Ring" <;>
        simp [patchCore, patchStage1, forcedTag, h1, h2, h3, h4, h5, h6, h7, h8, h9, h10, h11,
          h12, h13, h14, h15, h16, h17, h18, hs]
    · simp [patchCore, patchStage1, forcedTag, h1, h2, h3, h4, h5, h6, h7, h8, h9, h10, h11,
        h12, h13, h14, h15, h16, h17, h18, ht]
  by_cases h19 : r.tag = "SKVS"
  · by_cases ht : t = 5
    · subst ht
      cases hs : subpartBaked env name "Socket" <;>
        simp [patchCore, patchStage1, forcedTag, h1, h2, h3, h4, h5, h6, h7, h8, h9, h10, h11,
          h12, h13, h14, h15, h16, h17, h18, h19, hs]
    · simp [patchCore, patchStage1, forcedTag, h1, h2, h3, h4, h5, h6, h7, h8, h9, h10, h11,
        h12, h13, h14, h15, h16, h17, h18, h19, ht]
  simp [patchCore, patchStage1, forcedTag, h1, h2, h3, h4, h5, h6, h7, h8, h9, h10, h11,
    h12, h13, h14, h15, h16, h17, h18, h19]

/-- C6 (amended) — For every kept item covered by a bake, apart from the
playfield physics rename and the synchronization writes applied to baked
lights and flashers, exactly the visibility/reflection tag payloads
relevant to that item's kind and baked subpart are overwritten to false
in place, and every other byte of the item record is unchanged in the
destination; for a bumper whose Ring subpart alone is baked, the
ring-visibility payload is forced false while the base/cap visibility
payloads keep their original true values. -/
theorem c6_item_visibility_patch (env : ExportEnv) (t : Int) (name : String)
    (bk bl : Bool) (rs : List BiffRecord)
    (hpf : ¬(name = "playfield_mesh" ∧ env.playfieldCol = true))
    (hl : t = 7 → bl = false) (hf : t = 20 → bl = false) :
    patchItem env t name bk bl rs = rs.map (fun r =>
      if forcedTag env t name bk r.tag = true then forceBoolFalse r else r) := by
  unfold patchItem
  refine List.map_congr_left (fun r _ => ?_)
  rw [patchRecord_eq_core env t name bk bl r hl hf, patchCore_forced env t name bk r hpf]

/-- C6 counterexample — a kept item covered by a bake whose record
changes outside the claim's allowance: with a playfield collection
configured, `playfield_mesh` is in the baked object list, the item is
kept, and 8 bytes of its `NAME` payload are rewritten (renaming it to
`playfield_phys`), a byte change that is neither a visibility nor a
reflection payload and is not a force-to-false. -/
theorem c6_item_patch_counterexample :
    exEnvPF.bakedVpxObjects.contains "playfield_mesh" = true ∧
    (processItem exEnvPF exPlayfieldItem).written =
      some (itemBytes 19
        [⟨"NAME", overwriteAt (wideStrPayload ("playfield_mesh")) 24
            (u32le 0x00680070 ++ u32le 0x00730079)⟩,
         ⟨"CLDR", u32le 1⟩]) ∧
    overwriteAt (wideStrPayload ("playfield_mesh")) 24 (u32le 0x00680070 ++ u32le 0x00730079)
      ≠ wideStrPayload ("playfield_mesh") ∧
    decodeWide (overwriteAt (wideStrPayload ("playfield_mesh")) 24
      (u32le 0x00680070 ++ u32le 0x00730079)) = "playfield_phys" := by
  refine ⟨by decide, by decide, by decide, by decide⟩

/-- Witness for C6 at Scenario A: Bumper1 (type 5) with all subparts
visible and a bake covering only its Ring: the ring visibility payload
becomes false, the base and cap visibility payloads stay at their
original true value, every other record is byte-identical. -/
theorem c6_item_visibility_patch_witness :
    (¬("Bumper1" = "playfield_mesh" ∧ exEnvBumper.playfieldCol = true)) ∧
    patchItem exEnvBumper 5 "Bumper1" true false exBumperRecs =
      exBumperRecs.map (fun r =>
        if forcedTag exEnvBumper 5 "Bumper1" true r.tag = true then forceBoolFalse r else r) ∧
    patchItem exEnvBumper 5 "Bumper1" true false exBumperRecs =
      [⟨"NAME", wideStrPayload ("Bumper1")⟩,
       ⟨"BSVS", u32le 1⟩, ⟨"RIVS", u32le 0⟩, ⟨"CAVI", u32le 1⟩, ⟨"SKVS", u32le 1⟩,
       ⟨"REEN", u32le 0⟩] :=
  ⟨by decide,
    c6_item_visibility_patch exEnvBumper 5 "Bumper1" true false exBumperRecs
      (by decide) (by decide) (by decide),
    by decide⟩
